import Mathlib

/-!
Verification development for the LSS training assistant repository.

The Python sources (`src/tools.py`, `src/data_models.py`, `src/sheets_agent.py`)
are shallowly embedded below.  Strings are modelled as Lean `String`s, with the
relevant Python `str` operations re-implemented on the underlying `List Char`
(structural recursion, so that every definition evaluates inside the kernel).
`pandas` timestamps are modelled at day resolution by `LSS.Date`
(the code only ever builds midnight timestamps and compares them), money
amounts (Python `float`) are modelled by `ℚ`, and Python exceptions by
`Except`/structured error values.  ASCII case folding models `str.lower`
(the data and queries involved are ASCII apart from the euro sign, which is
case-less).
-/

/-- Decidable equality for `Except` (kernel-computable, used to evaluate the
embedded fallible operations on concrete inputs). -/
instance {ε α : Type _} [DecidableEq ε] [DecidableEq α] : DecidableEq (Except ε α) :=
  fun x y =>
    match x, y with
    | .ok a, .ok b => decidable_of_iff (a = b) (by simp)
    | .error a, .error b => decidable_of_iff (a = b) (by simp)
    | .ok _, .error _ => isFalse (fun h => Except.noConfusion h)
    | .error _, .ok _ => isFalse (fun h => Except.noConfusion h)

namespace LSS

/-! ## Character and string utilities -/

/-- The whitespace characters stripped by Python `str.strip()` / `str.split()`. -/
def pyWsChars : List Char := [' ', '\t', '\n', '\r', '\x0b', '\x0c']

/-- Whitespace test, modelling Python `str.isspace` on the characters that occur. -/
def pyWs (c : Char) : Bool := pyWsChars.contains c

/-- ASCII lower-casing of one character, modelling `str.lower` on ASCII text. -/
def lowerChar : Char → Char
  | 'A' => 'a' | 'B' => 'b' | 'C' => 'c' | 'D' => 'd' | 'E' => 'e' | 'F' => 'f'
  | 'G' => 'g' | 'H' => 'h' | 'I' => 'i' | 'J' => 'j' | 'K' => 'k' | 'L' => 'l'
  | 'M' => 'm' | 'N' => 'n' | 'O' => 'o' | 'P' => 'p' | 'Q' => 'q' | 'R' => 'r'
  | 'S' => 's' | 'T' => 't' | 'U' => 'u' | 'V' => 'v' | 'W' => 'w' | 'X' => 'x'
  | 'Y' => 'y' | 'Z' => 'z'
  | c => c

/-- `str.lower` on a whole string. -/
def lowerStr (s : String) : String := ⟨s.data.map lowerChar⟩

/-- Does `hay` start with `needle`? -/
def startsWithCh : List Char → List Char → Bool
  | [], _ => true
  | _ :: _, [] => false
  | n :: ns, h :: hs => n == h && startsWithCh ns hs

/-- Substring containment on character lists (Python `needle in hay`). -/
def containsCh (needle : List Char) : List Char → Bool
  | [] => startsWithCh needle []
  | h :: hs => startsWithCh needle (h :: hs) || containsCh needle hs

/-- Python `needle in hay` on strings. -/
def hasSub (hay needle : String) : Bool := containsCh needle.data hay.data

/-- Does `hay` end with `suffix`? (Python `str.endswith`). -/
def endsWithCh (suffix hay : List Char) : Bool :=
  startsWithCh suffix.reverse hay.reverse

/-- Python `s[:-n]` for `n ≤ len s`. -/
def dropRightCh (l : List Char) (n : Nat) : List Char := l.take (l.length - n)

/-- Python `str.strip()`: drop leading and trailing whitespace. -/
def trimChars (cs : List Char) : List Char :=
  ((cs.dropWhile pyWs).reverse.dropWhile pyWs).reverse

/-- The maximal whitespace-free words of a string, in order
(Python `str.split()` with no argument: runs of whitespace separate, no empties). -/
def wordsCh : List Char → List (List Char)
  | [] => []
  | c :: cs =>
    if pyWs c then wordsCh cs
    else
      match cs, wordsCh cs with
      | [], _ => [[c]]
      | c2 :: _, ws =>
        if pyWs c2 then [c] :: ws
        else
          match ws with
          | [] => [[c]]
          | w :: t => (c :: w) :: t

/-- `" ".join(words)`. -/
def joinSpace : List (List Char) → List Char
  | [] => []
  | [w] => w
  | w :: ws => w ++ ' ' :: joinSpace ws

/-- Python `' '.join(s.split())`: collapse internal whitespace, trim ends. -/
def collapseWs (cs : List Char) : List Char := joinSpace (wordsCh cs)

/-! ## Decimal digits -/

/-- The decimal digit characters. -/
def digitChar10 : Nat → Char
  | 0 => '0' | 1 => '1' | 2 => '2' | 3 => '3' | 4 => '4'
  | 5 => '5' | 6 => '6' | 7 => '7' | 8 => '8' | 9 => '9'
  | _ => '*'

/-- Decimal digits of `n`, least significant first, with explicit fuel
(structural recursion; `fuel ≥ n` suffices). -/
def toDigitsRev : Nat → Nat → List Nat
  | 0, _ => []
  | fuel + 1, n => if n = 0 then [] else (n % 10) :: toDigitsRev fuel (n / 10)

/-- Decimal rendering of a natural number (Python `str(n)` / `'%Y'` formatting). -/
def natChars (n : Nat) : List Char :=
  if n = 0 then ['0'] else ((toDigitsRev n n).reverse).map digitChar10

/-- Is `c` one of `'0'..'9'`? -/
def isDigitCh (c : Char) : Bool := decide ('0' ≤ c) && decide (c ≤ '9')

/-- Numeric value of a digit character. -/
def digitVal (c : Char) : Nat := c.toNat - 48

/-- Parse a non-empty all-digit character list as a natural number. -/
def parseNatChars (cs : List Char) : Option Nat :=
  if cs ≠ [] && cs.all isDigitCh then
    some (cs.foldl (fun a c => 10 * a + digitVal c) 0)
  else none

/-- Two-digit zero-padded rendering (`strftime` `%d` / `%m`). -/
def pad2 (n : Nat) : List Char := if n < 10 then ['0', digitChar10 n] else natChars n

/-! ## Calendar dates

`pandas` timestamps are modelled at day resolution: the code only constructs
midnight timestamps (`pd.Timestamp(year, month, day)`, dates parsed with
format `%d-%m-%Y`) except for `pd.Timestamp.now()`, and a midnight timestamp
`s` satisfies `s > now` exactly when `s`'s calendar date is after `now`'s. -/

/-- A calendar date. -/
structure Date where
  year : Nat
  month : Nat
  day : Nat
deriving Repr, DecidableEq

/-- Strict lexicographic order on dates. -/
def dateLt (a b : Date) : Bool :=
  Nat.blt a.year b.year ||
    (a.year == b.year &&
      (Nat.blt a.month b.month || (a.month == b.month && Nat.blt a.day b.day)))

/-- Non-strict order on dates. -/
def dateLe (a b : Date) : Bool := dateLt a b || a == b

/-- Gregorian leap-year rule. -/
def isLeap (y : Nat) : Bool := y % 4 == 0 && (y % 100 != 0 || y % 400 == 0)

/-- Number of days of month `m` of year `y`
(`pd.offsets.MonthEnd(1)` applied to the first of the month). -/
def daysInMonth (y m : Nat) : Nat :=
  if m == 2 then (if isLeap y then 29 else 28)
  else if m == 4 || m == 6 || m == 9 || m == 11 then 30
  else 31

/-- First day of the month. -/
def monthStart (y m : Nat) : Date := ⟨y, m, 1⟩

/-- Last day of the month (`first + MonthEnd(1)`). -/
def monthEnd (y m : Nat) : Date := ⟨y, m, daysInMonth y m⟩

/-- Year and month one month before the given year/month
(`ts - pd.DateOffset(months=1)`, which never changes more than the
year/month components used by the callers). -/
def prevMonthYM (y m : Nat) : Nat × Nat := if m = 1 then (y - 1, 12) else (y, m - 1)

/-- `strftime('%d-%m-%Y')` on a date. -/
def fmtDateDDMMYYYY (d : Date) : List Char :=
  pad2 d.day ++ '-' :: (pad2 d.month ++ '-' :: natChars d.year)

/-! ## `src/tools.py` — text normalizers -/

/-- The fixed legal-suffix list of `clean_company_name`
(`tools.py` line 84, identical in `SheetsAgent._clean_company_name`). -/
def suffixesList : List String := [" bv", " b.v.", " nv", " n.v.", " inc", " ltd"]

/-- The suffix-stripping loop of `clean_company_name`: one pass over
`suffixesList` in order, stripping each suffix the (lower-cased) current
name ends with. -/
def stripSuffixPass (cs : List Char) : List Char :=
  suffixesList.foldl
    (fun name suf =>
      if endsWithCh suf.data (name.map lowerChar) then dropRightCh name suf.data.length
      else name)
    cs

/-- `tools.clean_company_name` (lines 62–89): strip, collapse whitespace,
strip legal suffixes (one pass over the list), strip again. -/
def clean_company_name (s : String) : String :=
  ⟨trimChars (stripSuffixPass (collapseWs (trimChars s.data)))⟩

/-- Split a character list at `'-'` separators (every occurrence separates;
pieces may be empty).  Used to model `strptime` with format `%d-%m-%Y`. -/
def splitDash : List Char → List (List Char)
  | [] => [[]]
  | c :: cs =>
    if c = '-' then [] :: splitDash cs
    else
      match splitDash cs with
      | [] => [[c]]
      | h :: t => (c :: h) :: t

/-- Calendar validity of a `d-m-y` combination, together with the
`pd.Timestamp` year range (Timestamps span 1677-09-21 … 2262-04-11; we use
the fully-covered years 1678–2261, which is the range relevant to the data). -/
def validDMY (d m y : Nat) : Bool :=
  1 ≤ m && m ≤ 12 && 1 ≤ d && d ≤ daysInMonth y m && 1678 ≤ y && y ≤ 2261

/-- `pd.to_datetime(s, format='%d-%m-%Y')` (exact match): day and month of
one or two digits, year of exactly four digits, separated by `'-'`, denoting
a real calendar date in the Timestamp range.  Returns the date or `none`. -/
def parseDateChars (cs : List Char) : Option Date :=
  match splitDash cs with
  | [dc, mc, yc] =>
    if (1 ≤ dc.length && dc.length ≤ 2) && (1 ≤ mc.length && mc.length ≤ 2)
        && yc.length == 4 then
      match parseNatChars dc, parseNatChars mc, parseNatChars yc with
      | some d, some m, some y => if validDMY d m y then some ⟨y, m, d⟩ else none
      | _, _, _ => none
    else none
  | _ => none

/-- `tools.standardize_date` (lines 91–116): strip the input, try to parse it
as `%d-%m-%Y`, and reformat with `strftime('%d-%m-%Y')`; on failure return the
(stripped) string unchanged with a warning.  (The strip happens before the
parse inside the `try`, so the failure branch returns the stripped string.) -/
def standardize_date (s : String) : String :=
  let t := trimChars s.data
  match parseDateChars t with
  | some d => ⟨fmtDateDDMMYYYY d⟩
  | none => ⟨t⟩

/-! ## Python `float()` on finite decimal literals

`Training.from_row` calls `float(...)` on the normalized revenue text.  We
model `float` on the finite decimal fragment: optional surrounding
whitespace, optional sign, digits with optional fraction, optional exponent.
(`inf`/`nan`/underscore separators never occur in this data and are omitted;
on them the model fails where Python would succeed, which no claim touches.)
The magnitude is kept as integer parts so that parsing is kernel-computable;
`floatMagToRat` assembles the exact rational value. -/

/-- Parsed magnitude of a decimal literal: integer part value, fraction part
value and length, exponent. -/
structure FloatMag where
  ip : Nat
  fv : Nat
  fl : Nat
  exp : Int
deriving Repr, DecidableEq

/-- Value of a digit-character list (0 for the empty list). -/
def natOfDigitChars (cs : List Char) : Nat :=
  cs.foldl (fun a c => 10 * a + digitVal c) 0

/-- Parse the optional exponent suffix (`e`/`E`, optional sign, digits). -/
def parseExpPart : List Char → Option Int
  | [] => some 0
  | c :: rest =>
    if c == 'e' || c == 'E' then
      match rest with
      | '+' :: ds => (parseNatChars ds).map Int.ofNat
      | '-' :: ds => (parseNatChars ds).map (fun n => -(n : Int))
      | ds => (parseNatChars ds).map Int.ofNat
    else none

/-- Parse an unsigned decimal literal (digits, optional `.` fraction,
optional exponent); at least one digit must be present in the mantissa. -/
def parseUnsignedFloat (cs : List Char) : Option FloatMag :=
  let p := cs.span isDigitCh
  match p.2 with
  | '.' :: rest2 =>
    let q := rest2.span isDigitCh
    if p.1.isEmpty && q.1.isEmpty then none
    else (parseExpPart q.2).map
      (fun e => ⟨natOfDigitChars p.1, natOfDigitChars q.1, q.1.length, e⟩)
  | _ =>
    if p.1.isEmpty then none
    else (parseExpPart p.2).map (fun e => ⟨natOfDigitChars p.1, 0, 0, e⟩)

/-- Sign and magnitude of a decimal literal, Python `float(s)`. -/
def pyFloatParts (cs : List Char) : Option (Bool × FloatMag) :=
  match trimChars cs with
  | '+' :: rest => (parseUnsignedFloat rest).map (fun m => (false, m))
  | '-' :: rest => (parseUnsignedFloat rest).map (fun m => (true, m))
  | rest => (parseUnsignedFloat rest).map (fun m => (false, m))

/-- Exact rational value of a parsed magnitude. -/
def floatMagToRat (m : FloatMag) : ℚ :=
  ((m.ip : ℚ) + (m.fv : ℚ) / (10 : ℚ) ^ m.fl) * (10 : ℚ) ^ m.exp

/-- Python `float(s)` as an exact rational (floats carry the denoted value;
no claim depends on binary rounding). -/
def pyFloat (cs : List Char) : Option ℚ :=
  (pyFloatParts cs).map (fun p => if p.1 then -(floatMagToRat p.2) else floatMagToRat p.2)

/-! ## `src/data_models.py` -/

/-- One raw sheet row (the five consumed columns, as cell text). -/
structure RawRow where
  datumInschrijving : String
  training : String
  omzet : String
  rowType : String
  bedrijf : String
deriving Repr, DecidableEq

/-- The revenue-text normalization of `Training.from_row` (line 28):
`str.replace('€','').replace('.','').replace(',','.')`.  The three patterns
are single characters, so the replacements act characterwise: drop every
`'€'` and `'.'`, then turn every `','` into `'.'`. -/
def omzetNormalize (cs : List Char) : List Char :=
  (cs.filter (fun c => !(c == '€') && !(c == '.'))).map
    (fun c => if c == ',' then '.' else c)

/-- `data_models.py` revenue parsing: normalize then `float(...)`. -/
def parse_omzet (raw : String) : Option ℚ := pyFloat (omzetNormalize raw.data)

/-- A parsed training registration (`data_models.Training`). -/
structure Training where
  datum_inschrijving : Date
  training_naam : String
  omzet : ℚ
  rowType : String
  bedrijf : String
deriving DecidableEq

/-- `Training.from_row` (lines 19–38): parse the date with format
`%d-%m-%Y` and the revenue via `float`, keep the other columns verbatim;
any failure raises `ValueError("Error parsing row: ...")` (the message body
abbreviates the Python text, which interpolates the underlying exception). -/
def Training.from_row (r : RawRow) : Except String Training :=
  match parseDateChars r.datumInschrijving.data with
  | none => .error ("Error parsing row: invalid date " ++ r.datumInschrijving)
  | some d =>
    match parse_omzet r.omzet with
    | none => .error ("Error parsing row: invalid omzet " ++ r.omzet)
    | some q => .ok ⟨d, r.training, q, r.rowType, r.bedrijf⟩

/-- `data_models.TrainingData`. -/
structure TrainingData where
  trainingen : List Training
deriving DecidableEq

/-- The row loop of `TrainingData.from_sheet_data` (lines 51–56): walk the
rows with their indices, appending parsed rows to one list and
`(index, message)` failures to the other. -/
def loadRowsAux : Nat → List RawRow → List Training × List (Nat × String)
  | _, [] => ([], [])
  | i, r :: rs =>
    let rest := loadRowsAux (i + 1) rs
    match Training.from_row r with
    | .ok t => (t :: rest.1, rest.2)
    | .error m => (rest.1, (i, m) :: rest.2)

/-- `TrainingData.from_sheet_data` (lines 45–61): parse every row; if any
row failed, raise a `ValueError` itemizing all failures (modelled as the
structured list the Python message is joined from), otherwise return the
parsed collection. -/
def TrainingData.from_sheet_data (rows : List RawRow) :
    Except (List (Nat × String)) TrainingData :=
  let p := loadRowsAux 0 rows
  if p.2.isEmpty then .ok ⟨p.1⟩ else .error p.2

/-- `filter_by_period` (lines 63–83): keep rows with
`start ≤ datum_inschrijving ≤ end` (both ends inclusive). -/
def TrainingData.filter_by_period (d : TrainingData) (s e : Date) : TrainingData :=
  ⟨d.trainingen.filter (fun t => dateLe s t.datum_inschrijving && dateLe t.datum_inschrijving e)⟩

/-- `filter_by_type` (lines 85–91): case-insensitive substring match on the type. -/
def TrainingData.filter_by_type (d : TrainingData) (q : String) : TrainingData :=
  ⟨d.trainingen.filter (fun t => hasSub (lowerStr t.rowType) (lowerStr q))⟩

/-- `filter_by_company` (lines 93–99): case-insensitive substring match on the company. -/
def TrainingData.filter_by_company (d : TrainingData) (q : String) : TrainingData :=
  ⟨d.trainingen.filter (fun t => hasSub (lowerStr t.bedrijf) (lowerStr q))⟩

/-- `get_total_revenue` (lines 101–109): `sum(t.omzet for t in trainingen)`. -/
def TrainingData.get_total_revenue (d : TrainingData) : ℚ :=
  (d.trainingen.map (·.omzet)).sum

/-- Insert/accumulate into an association list, preserving first-insertion
key order (Python `dict` semantics of `rbt[k] = rbt.get(k, 0) + v`). -/
def upsertQ (k : String) (v : ℚ) : List (String × ℚ) → List (String × ℚ)
  | [] => [(k, v)]
  | (k', v') :: rest =>
    if k' = k then (k', v' + v) :: rest else (k', v') :: upsertQ k v rest

/-- `get_revenue_by_type` (lines 111–122): revenue per type label, keys in
first-appearance order. -/
def TrainingData.get_revenue_by_type (d : TrainingData) : List (String × ℚ) :=
  d.trainingen.foldl (fun acc t => upsertQ t.rowType t.omzet acc) []

/-! ## `src/sheets_agent.py` — period resolution -/

/-- The Dutch month names with their numbers, in the insertion order of the
`months` dict of `_parse_query_period` (lines 196–199); the `for` loop over
`months.items()` tests them in this order. -/
def monthsList : List (String × Nat) :=
  [("januari", 1), ("februari", 2), ("maart", 3), ("april", 4), ("mei", 5),
   ("juni", 6), ("juli", 7), ("augustus", 8), ("september", 9),
   ("oktober", 10), ("november", 11), ("december", 12)]

/-- The quarter keywords with their first and last months, in the insertion
order of the `quarters` dict (lines 240–249). -/
def quartersList : List (String × Nat × Nat) :=
  [("q1", 1, 3), ("eerste kwartaal", 1, 3), ("q2", 4, 6), ("tweede kwartaal", 4, 6),
   ("q3", 7, 9), ("derde kwartaal", 7, 9), ("q4", 10, 12), ("vierde kwartaal", 10, 12)]

/-- `re.search(r'20\d{2}', query)`: the leftmost occurrence of `20`
followed by two digits, as a number. -/
def findYear : List Char → Option Nat
  | [] => none
  | c :: cs =>
    match c, cs with
    | '2', '0' :: c1 :: c2 :: _ =>
      if isDigitCh c1 && isDigitCh c2 then some (2000 + 10 * digitVal c1 + digitVal c2)
      else findYear cs
    | _, _ => findYear cs

/-- The `ValueError`s raised out of `_parse_query_period`, as structured
values carrying the period description; `renderResolveErr` gives the
exception text (including the wrapping applied by the function's own
`except` clauses). -/
inductive ResolveErr where
  | futureMonth (name : String) (year : Nat)
  | futureQuarter (name : String) (year : Nat)
  | futureYear (year : Nat)
deriving Repr, DecidableEq

/-- Decimal string of a natural number. -/
def natStr (n : Nat) : String := ⟨natChars n⟩

/-- The message of the `ValueError` as it leaves `_parse_query_period`:
the future-period message, wrapped by the inner `except` (month/quarter
branches) and by the outer `except` (line 294). -/
def renderResolveErr : ResolveErr → String
  | .futureMonth n y =>
    "Kon de periode niet bepalen: Kon geen datums maken voor " ++ n ++ " " ++ natStr y ++
      ": Kan geen data tonen voor " ++ n ++ " " ++ natStr y ++
      " omdat deze periode in de toekomst ligt."
  | .futureQuarter n y =>
    "Kon de periode niet bepalen: Kon geen datums maken voor " ++ n ++ " " ++ natStr y ++
      ": Kan geen data tonen voor " ++ n ++ " " ++ natStr y ++
      " omdat deze periode in de toekomst ligt."
  | .futureYear y =>
    "Kon de periode niet bepalen: Kan geen data tonen voor het jaar " ++ natStr y ++
      " omdat dit in de toekomst ligt."

/-- What `_parse_query_period` returns: either a `(start, end)` timestamp
pair, or — for bare-year queries — the dict `{'type': 'year', 'year': y}`. -/
inductive PeriodOut where
  | range (s e : Date)
  | yearDict (y : Nat)
deriving Repr, DecidableEq

/-- `SheetsAgent._parse_query_period` (lines 189–294).  The branches run in
source order: the month-name loop first (lines 206–223), then `'deze maand'`
(226), `'vorige maand'` (232), the quarter loop (252–269), the bare-year
check (272–284, reached only when no month name is present, so the
`not any(month in query)` guard at line 280 always holds there), and the
all-time fallback (287–290).  `year` is the first `20\d{2}` occurrence or
the current year (lines 202–203). -/
def parse_query_period (query : String) (now : Date) : Except ResolveErr PeriodOut :=
  let q := lowerStr query
  let year := (findYear q.data).getD now.year
  match monthsList.find? (fun p => hasSub q p.1) with
  | some (name, m) =>
    if dateLt now (monthStart year m) then .error (.futureMonth name year)
    else .ok (.range (monthStart year m) (monthEnd year m))
  | none =>
    if hasSub q "deze maand" then
      .ok (.range (monthStart now.year now.month) (monthEnd now.year now.month))
    else if hasSub q "vorige maand" then
      let p := prevMonthYM now.year now.month
      .ok (.range (monthStart p.1 p.2) (monthEnd p.1 p.2))
    else
      match quartersList.find? (fun p => hasSub q p.1) with
      | some (name, sm, em) =>
        if dateLt now (monthStart year sm) then .error (.futureQuarter name year)
        else .ok (.range (monthStart year sm) (monthEnd year em))
      | none =>
        match findYear q.data with
        | some y =>
          if Nat.blt now.year y then .error (.futureYear y)
          else .ok (.yearDict y)
        | none => .ok (.range ⟨2000, 1, 1⟩ now)

/-! ## `src/sheets_agent.py` — aggregation and trends -/

/-- One per-type entry of the `trends['by_type']` dict (lines 532–537). -/
structure TypeTrend where
  current_value : ℚ
  previous_value : ℚ
  change_percentage : ℚ
deriving DecidableEq

/-- The `trends` dict built by `_calculate_trends`. -/
structure Trends where
  total_change_percentage : ℚ
  by_type : List (String × TypeTrend)
deriving DecidableEq

/-- `SheetsAgent._calculate_trends` (lines 514–539): percentage change of the
total (0 whenever the previous total is not positive), and per-type changes
when previous-period data is present. -/
def calculate_trends (current : TrainingData) (previous : Option TrainingData) : Trends :=
  let ct := current.get_total_revenue
  let pt := match previous with
    | some p => p.get_total_revenue
    | none => 0
  { total_change_percentage := if 0 < pt then (ct - pt) / pt * 100 else 0
    by_type :=
      match previous with
      | none => []
      | some p =>
        current.get_revenue_by_type.map (fun kv =>
          let cv := kv.2
          let pv := (p.get_revenue_by_type.lookup kv.1).getD 0
          (kv.1, ⟨cv, pv, if 0 < pv then (cv - pv) / pv * 100 else 0⟩)) }

/-- `SheetsAgent._get_previous_period_data` (lines 541–548): any non-dict
period (`None` or a `(start, end)` tuple) fails the `isinstance(period, dict)`
test and returns `None`; a dict period reaches `period[0]`, which raises
`KeyError(0)` (dicts are subscripted by key, and the period dicts have no
key `0`).  The emptiness re-check on the filtered frame is therefore dead
code for tuple periods. -/
def get_previous_period_data (_data : TrainingData) :
    Option PeriodOut → Except String (Option TrainingData)
  | none => .ok none
  | some (.range _ _) => .ok none
  | some (.yearDict _) => .error "KeyError: 0"

/-- The fields of the summary dict of `get_training_summary` that the claims
concern (`total_value`, `trends`); the presentation-only fields
(`trainings`, `by_type`, `by_company`, `period` description) are omitted. -/
structure Summary where
  total_value : ℚ
  trends : Trends
deriving DecidableEq

/-- `SheetsAgent.get_training_summary` (lines 296–345): filter by the period
(`period[0]`/`period[1]` — a dict period raises `KeyError(0)` at line 301),
optionally filter by company, and build the summary with
`trends = _calculate_trends(filtered, _get_previous_period_data(period))`. -/
def get_training_summary (data : TrainingData) (period : Option PeriodOut)
    (company_filter : Option String) : Except String Summary :=
  match period with
  | some (.yearDict _) => .error "KeyError: 0"
  | _ =>
    let filtered := match period with
      | some (.range s e) => data.filter_by_period s e
      | _ => data
    let filtered2 := match company_filter with
      | some c => filtered.filter_by_company c
      | none => filtered
    match get_previous_period_data data period with
    | .error m => .error m
    | .ok prev => .ok ⟨filtered2.get_total_revenue, calculate_trends filtered2 prev⟩

/-! ## `src/sheets_agent.py` — query orchestration -/

/-- One chat message (`{"role": ..., "content": ...}`). -/
structure Msg where
  role : String
  content : String
deriving DecidableEq

/-- The system prompt (lines 60–99; the full Dutch text is irrelevant to the
claims and abbreviated to its first sentence). -/
def system_prompt : String :=
  "Je bent een Nederlandse AI assistent die trainingsdata analyseert."

/-- The context block serialized into the user message (lines 394–416):
total revenue, registration count and period of the filtered data (the JSON
shape of `json.dumps` is abbreviated to a flat rendering; no claim depends
on the exact context text). -/
def renderContext (d : TrainingData) (s e : Date) : String :=
  "totale_omzet: " ++ toString d.get_total_revenue ++
    ", totaal_aantal_inschrijvingen: " ++ natStr d.trainingen.length ++
    ", periode: " ++ (⟨fmtDateDDMMYYYY s⟩ : String) ++ " tot " ++ (⟨fmtDateDDMMYYYY e⟩ : String)

/-- Python `list[-n:]`: the last `n` elements (all of them when shorter). -/
def takeRightL (n : Nat) (l : List α) : List α := l.drop (l.length - n)

/-- `SheetsAgent.query_data` (lines 365–450), as a state transition on the
conversation history.  `hist` is `self.conversation_history` before the
call, `data` is `self.training_data`, `llm` stands for the OpenAI completion
call (a function of the outgoing messages).  On success it returns the
answer together with the new history; every raised exception is wrapped by
the outer handler into `ValueError("Er is een fout opgetreden: ...")`.
`max_history = 5` (line 57) is used only to slice the messages sent
(line 430); the stored history is appended to without any truncation
(lines 443–444). -/
def query_data (hist : List Msg) (data : Option TrainingData) (user_query : String)
    (now : Date) (llm : List Msg → String) : Except String (String × List Msg) :=
  match data with
  | none => .error "Er is een fout opgetreden: Geen data geladen. Roep eerst load_sheet_data aan."
  | some td =>
    match parse_query_period (lowerStr user_query) now with
    | .error e =>
      .error ("Er is een fout opgetreden: Kon de periode niet bepalen: " ++ renderResolveErr e)
    | .ok (.yearDict _) =>
      -- `start_date = period[0]` on the year dict raises `KeyError(0)`;
      -- `str(KeyError(0))` is `"0"`.
      .error "Er is een fout opgetreden: Kon de periode niet bepalen: 0"
    | .ok (.range s e) =>
      let filtered := td.filter_by_period s e
      let ctx := renderContext filtered s e
      let messages := ⟨"system", system_prompt⟩ ::
        (takeRightL 5 hist ++ [⟨"user", "Context:\n" ++ ctx ++ "\n\nVraag: " ++ user_query⟩])
      let resp := llm messages
      .ok (resp, hist ++ [⟨"user", user_query⟩, ⟨"assistant", resp⟩])

/-! ## Per-branch outcomes of `_parse_query_period`

Named copies of the individual rule bodies, used to state which rule fires
for which query (claims C1 and C3). -/

/-- Outcome of the month-name rule (lines 206–223) for a query whose first
matching month name is `name`/`m`. -/
def monthRuleRes (q : String) (now : Date) (name : String) (m : Nat) :
    Except ResolveErr PeriodOut :=
  let year := (findYear q.data).getD now.year
  if dateLt now (monthStart year m) then .error (.futureMonth name year)
  else .ok (.range (monthStart year m) (monthEnd year m))

/-- Outcome of the `'deze maand'` rule (lines 226–230). -/
def currentMonthRes (now : Date) : Except ResolveErr PeriodOut :=
  .ok (.range (monthStart now.year now.month) (monthEnd now.year now.month))

/-- Outcome of the `'vorige maand'` rule (lines 232–237). -/
def previousMonthRes (now : Date) : Except ResolveErr PeriodOut :=
  let p := prevMonthYM now.year now.month
  .ok (.range (monthStart p.1 p.2) (monthEnd p.1 p.2))

/-- Outcome of the quarter rule (lines 252–269) for the first matching
quarter keyword `name` with months `sm`–`em`. -/
def quarterRuleRes (q : String) (now : Date) (name : String) (sm em : Nat) :
    Except ResolveErr PeriodOut :=
  let year := (findYear q.data).getD now.year
  if dateLt now (monthStart year sm) then .error (.futureQuarter name year)
  else .ok (.range (monthStart year sm) (monthEnd year em))

/-- Outcome of the bare-year rule (lines 271–284) for the year `y` found in
the query. -/
def yearRuleRes (now : Date) (y : Nat) : Except ResolveErr PeriodOut :=
  if Nat.blt now.year y then .error (.futureYear y) else .ok (.yearDict y)

/-- Outcome of the all-time fallback (lines 287–290). -/
def allTimeRes (now : Date) : Except ResolveErr PeriodOut :=
  .ok (.range ⟨2000, 1, 1⟩ now)

/-! ## Claim-specific concrete data -/

/-- Modelled from the spec (claim C2, §4.3 `trends`): the total change
percentage obtained by comparing a month period against the immediately
preceding calendar month, shifting the resolved range back by one month and
filtering independently, with the `previous == 0 → 0` convention.  Stated
from the spec's words, for comparison against what the code computes. -/
def specMonthTrendPct (data : TrainingData) (y m : Nat) : ℚ :=
  let cur := (data.filter_by_period (monthStart y m) (monthEnd y m)).get_total_revenue
  let p := prevMonthYM y m
  let prev := (data.filter_by_period (monthStart p.1 p.2) (monthEnd p.1 p.2)).get_total_revenue
  if 0 < prev then (cur - prev) / prev * 100 else 0

/-- Dataset with one January-2024 registration of 300 and three
February-2024 registrations of 100, 200, 300 (the spec's trend scenario). -/
def c2data : TrainingData :=
  ⟨[⟨⟨2024, 1, 10⟩, "Training D", 300, "Green Belt", "ACME"⟩,
    ⟨⟨2024, 2, 5⟩, "Training A", 100, "Green Belt", "ACME"⟩,
    ⟨⟨2024, 2, 6⟩, "Training B", 200, "Green Belt", "ACME"⟩,
    ⟨⟨2024, 2, 7⟩, "Training C", 300, "Black Belt", "Beta"⟩]⟩

/-- Three registrations with revenues 100, 200, 300 (total 600). -/
def curSet600 : TrainingData :=
  ⟨[⟨⟨2024, 2, 5⟩, "Training A", 100, "Green Belt", "ACME"⟩,
    ⟨⟨2024, 2, 10⟩, "Training B", 200, "Green Belt", "ACME"⟩,
    ⟨⟨2024, 2, 15⟩, "Training C", 300, "Black Belt", "Beta"⟩]⟩

/-- One registration with revenue 300. -/
def prevSet300 : TrainingData :=
  ⟨[⟨⟨2024, 1, 10⟩, "Training D", 300, "Green Belt", "ACME"⟩]⟩

/-- A sheet row on which every field parse succeeds. -/
def goodRow : RawRow := ⟨"05-01-2024", "Green Belt Training", "€ 100,00", "Green Belt", "ACME"⟩

/-- Its parse result. -/
def goodTraining : Training := ⟨⟨2024, 1, 5⟩, "Green Belt Training", 100, "Green Belt", "ACME"⟩

/-- A sheet row whose date does not parse. -/
def badRow : RawRow := ⟨"not-a-date", "X", "€ 100,00", "Y", "Z"⟩

/-- The conversation history after `n` successful `query_data` calls
(query "omzet": all-time fallback, always succeeds), starting from an empty
history — the repeated state transition of claim C5. -/
def historyAfter (n : Nat) : List Msg :=
  (List.range n).foldl
    (fun h _ =>
      match query_data h (some ⟨[]⟩) "omzet" ⟨2025, 10, 12⟩ (fun _ => "antwoord") with
      | .ok p => p.2
      | .error _ => h)
    []

/-- The message list `query_data` sends to the completion service when the
resolver produced the range `[s, e]`: the system prompt, the last
`max_history = 5` *messages* of the stored history, and the context-wrapped
user query (lines 425–433). -/
def sentMessages (hist : List Msg) (td : TrainingData) (q : String) (s e : Date) : List Msg :=
  ⟨"system", system_prompt⟩ ::
    (takeRightL 5 hist ++
      [⟨"user", "Context:\n" ++ renderContext (td.filter_by_period s e) s e ++ "\n\nVraag: " ++ q⟩])

/-!
# Theorems
-/

/-- C7 (corrected): company-name cleaning trims, collapses internal
whitespace, and case-insensitively strips trailing legal suffixes by a
single in-order pass over the fixed list `bv, b.v., nv, n.v., inc, ltd` —
each listed suffix is stripped at most once, but a chained pair is stripped
twice when the suffixes appear in list order ("ACME b.v. bv" loses both),
while a chain against list order loses only the outer one
("ACME bv b.v." keeps its "bv"). -/
theorem c7_company_name_cleaning :
    (∀ s : String,
      clean_company_name s = ⟨trimChars (stripSuffixPass (collapseWs (trimChars s.data)))⟩)
    ∧ clean_company_name "  ACME    Corp  " = "ACME Corp"
    ∧ clean_company_name "ACME Solutions B.V." = "ACME Solutions"
    ∧ clean_company_name "acme ltd" = "acme"
    ∧ clean_company_name "ACME b.v. bv" = "ACME"
    ∧ clean_company_name "ACME bv b.v." = "ACME bv" :=
  ⟨fun _ => rfl, by decide, by decide, by decide, by decide, by decide⟩

/-- C7 counterexample: on "ACME b.v. bv" the claim ("only one suffix is
stripped even if several suffixes are chained") predicts "ACME b.v.", but
the loop strips the " bv" and then the now-trailing " b.v." as well,
returning "ACME". -/
theorem c7_counterexample :
    clean_company_name "ACME b.v. bv" = "ACME" ∧
    clean_company_name "ACME b.v. bv" ≠ "ACME b.v." :=
  ⟨by decide, by decide⟩

/-- C8 (corrected): revenue parsing drops the euro sign and the thousands
separators ('.'), turns the decimal comma into '.', and applies `float`,
which fails on non-numeric content — but nothing checks the sign, so a
negative raw amount parses to a negative revenue.  `'€ 1.234,56'` parses to
`1234.56`. -/
theorem c8_revenue_parsing :
    (∀ raw : String, parse_omzet raw = pyFloat (omzetNormalize raw.data))
    ∧ parse_omzet "€ 1.234,56" = some (123456 / 100)
    ∧ parse_omzet "abc" = none
    ∧ parse_omzet "" = none
    ∧ parse_omzet "€ -10,00" = some (-10) := by
  refine ⟨fun _ => rfl, ?_, ?_, ?_, ?_⟩
  · have h : pyFloatParts (omzetNormalize "€ 1.234,56".data) = some (false, ⟨1234, 56, 2, 0⟩) := by
      decide
    simp [parse_omzet, pyFloat, h, floatMagToRat]
    norm_num
  · have h : pyFloatParts (omzetNormalize "abc".data) = none := by decide
    simp [parse_omzet, pyFloat, h]
  · have h : pyFloatParts (omzetNormalize "".data) = none := by decide
    simp [parse_omzet, pyFloat, h]
  · have h : pyFloatParts (omzetNormalize "€ -10,00".data) = some (true, ⟨10, 0, 2, 0⟩) := by
      decide
    simp [parse_omzet, pyFloat, h, floatMagToRat]

/-- C8 counterexample: the raw string "-100" does not fail and does not
yield a non-negative amount — it parses to the negative value −100
(`Training.from_row` applies no sign check). -/
theorem c8_counterexample :
    parse_omzet "-100" = some (-100) ∧ ¬ (0 : ℚ) ≤ -100 := by
  constructor
  · have h : pyFloatParts (omzetNormalize "-100".data) = some (true, ⟨100, 0, 0, 0⟩) := by decide
    simp [parse_omzet, pyFloat, h, floatMagToRat]
  · norm_num

/-- C6 (confirmed): in `_calculate_trends` the total change percentage is
`(current − previous) / previous * 100` whenever the previous total is
positive and `0` when the previous total is `0`; for the concrete sets with
revenues 100, 200, 300 (total 600) against a previous total of 300 it is
exactly 100. -/
theorem c6_trend_percentage :
    (∀ cur prev : TrainingData,
      (0 < prev.get_total_revenue →
        (calculate_trends cur (some prev)).total_change_percentage =
          (cur.get_total_revenue - prev.get_total_revenue) / prev.get_total_revenue * 100)
      ∧ (prev.get_total_revenue = 0 →
        (calculate_trends cur (some prev)).total_change_percentage = 0))
    ∧ (calculate_trends curSet600 (some prevSet300)).total_change_percentage = 100 := by
  constructor
  · intro cur prev
    constructor
    · intro h
      simp [calculate_trends, h]
    · intro h
      simp [calculate_trends, h]
  · have hc : curSet600.get_total_revenue = 600 := by
      simp [TrainingData.get_total_revenue, curSet600]
      norm_num
    have hp : prevSet300.get_total_revenue = 300 := by
      simp [TrainingData.get_total_revenue, prevSet300]
    simp [calculate_trends, hc, hp]
    norm_num

/-- C6 witness: the general part of `c6_trend_percentage` applied at the
concrete 600-versus-300 sets. -/
theorem c6_witness :
    (0 : ℚ) < prevSet300.get_total_revenue ∧
    (calculate_trends curSet600 (some prevSet300)).total_change_percentage =
      (curSet600.get_total_revenue - prevSet300.get_total_revenue) /
        prevSet300.get_total_revenue * 100 := by
  have h300 : prevSet300.get_total_revenue = 300 := by
    simp [TrainingData.get_total_revenue, prevSet300]
  constructor
  · rw [h300]; norm_num
  · exact (c6_trend_percentage.1 curSet600 prevSet300).1 (by rw [h300]; norm_num)

/-- C5 (corrected): a successful `query_data` call sends the system prompt,
the last 5 stored *messages* (not pairs) and the context-wrapped query to
the completion service, and then appends the (user, assistant) pair to the
stored history without evicting anything — the stored history grows by two
messages per call, unboundedly. -/
theorem c5_history_growth :
    ∀ (hist : List Msg) (td : TrainingData) (q : String) (now : Date)
      (llm : List Msg → String) (s e : Date),
      parse_query_period (lowerStr q) now = .ok (.range s e) →
      query_data hist (some td) q now llm =
        .ok (llm (sentMessages hist td q s e),
             hist ++ [⟨"user", q⟩, ⟨"assistant", llm (sentMessages hist td q s e)⟩]) ∧
      (hist ++ [(⟨"user", q⟩ : Msg), ⟨"assistant", llm (sentMessages hist td q s e)⟩]).length =
        hist.length + 2 := by
  intro hist td q now llm s e hp
  constructor
  · unfold query_data
    rw [hp]
    rfl
  · simp

/-- C5 witness: `c5_history_growth` at a concrete all-time query on the
empty history. -/
theorem c5_witness :
    parse_query_period (lowerStr "alles") ⟨2025, 10, 12⟩ = .ok (.range ⟨2000, 1, 1⟩ ⟨2025, 10, 12⟩) ∧
    query_data [] (some ⟨[]⟩) "alles" ⟨2025, 10, 12⟩ (fun _ => "ok") =
      .ok ("ok", [⟨"user", "alles"⟩, ⟨"assistant", "ok"⟩]) := by
  refine ⟨by decide, ?_⟩
  have h := (c5_history_growth [] ⟨[]⟩ "alles" ⟨2025, 10, 12⟩ (fun _ => "ok")
    ⟨2000, 1, 1⟩ ⟨2025, 10, 12⟩ (by decide)).1
  simpa using h

/-- C5 counterexample: after 6 successful answered queries the stored
conversation history holds 6 (user, assistant) pairs — 12 messages — where
the claim allows at most 5 pairs; nothing was evicted. -/
theorem c5_counterexample :
    (historyAfter 6).length = 12 ∧ ¬ (historyAfter 6).length ≤ 10 :=
  ⟨by decide, by decide⟩

/-- C10 (confirmed): a query containing a `20dd` year not exceeding the
current year but no Dutch month name, no quarter keyword and neither
relative month phrase makes `_parse_query_period` return the dict
`{'type': 'year', 'year': y}` instead of a `(start, end)` pair, and
`query_data` then fails (the dict is subscripted with `period[0]`, raising
`KeyError(0)`, which the handlers wrap into a `ValueError`) instead of
answering. -/
theorem c10_bare_year_dict :
    ∀ (query : String) (now : Date) (td : TrainingData) (hist : List Msg)
      (llm : List Msg → String) (y : Nat),
      lowerStr query = query →
      (∀ p ∈ monthsList, hasSub query p.1 = false) →
      hasSub query "deze maand" = false →
      hasSub query "vorige maand" = false →
      (∀ p ∈ quartersList, hasSub query p.1 = false) →
      findYear query.data = some y →
      y ≤ now.year →
      parse_query_period query now = .ok (.yearDict y) ∧
      query_data hist (some td) query now llm =
        .error "Er is een fout opgetreden: Kon de periode niet bepalen: 0" := by
  intro query now td hist llm y hlow hm hd hv hq hy hyear
  have hfm : monthsList.find? (fun p => hasSub query p.1) = none :=
    List.find?_eq_none.mpr (fun p hp => by simp [hm p hp])
  have hfq : quartersList.find? (fun p => hasSub query p.1) = none :=
    List.find?_eq_none.mpr (fun p hp => by simp [hq p hp])
  have hblt : Nat.blt now.year y = false := by
    rw [← Bool.not_eq_true, Nat.blt_eq]
    omega
  have hparse : parse_query_period query now = .ok (.yearDict y) := by
    unfold parse_query_period
    dsimp only
    rw [hlow, hfm, hfq]
    simp [hd, hv, hy, hblt]
  refine ⟨hparse, ?_⟩
  unfold query_data
  rw [hlow, hparse]

/-- C1 (corrected): the resolver applies its rules in the source order —
month name first (first match in dict order), then `'deze maand'`, then
`'vorige maand'`, then quarter keyword (first match), then bare year
(returned as a year dict), then the all-time fallback; `'dit jaar'` and
`'vorig jaar'` are not recognized at all.  In particular, a query containing
both a quarter keyword and a Dutch month name resolves by the month rule
(SpecificMonth), not as a Quarter. -/
theorem c1_resolution_order :
    (∀ (query : String) (now : Date),
      (∀ (name : String) (m : Nat),
        monthsList.find? (fun p => hasSub (lowerStr query) p.1) = some (name, m) →
        parse_query_period query now = monthRuleRes (lowerStr query) now name m) ∧
      (monthsList.find? (fun p => hasSub (lowerStr query) p.1) = none →
        hasSub (lowerStr query) "deze maand" = true →
        parse_query_period query now = currentMonthRes now) ∧
      (monthsList.find? (fun p => hasSub (lowerStr query) p.1) = none →
        hasSub (lowerStr query) "deze maand" = false →
        hasSub (lowerStr query) "vorige maand" = true →
        parse_query_period query now = previousMonthRes now) ∧
      (∀ (name : String) (sm em : Nat),
        monthsList.find? (fun p => hasSub (lowerStr query) p.1) = none →
        hasSub (lowerStr query) "deze maand" = false →
        hasSub (lowerStr query) "vorige maand" = false →
        quartersList.find? (fun p => hasSub (lowerStr query) p.1) = some (name, sm, em) →
        parse_query_period query now = quarterRuleRes (lowerStr query) now name sm em) ∧
      (∀ y : Nat,
        monthsList.find? (fun p => hasSub (lowerStr query) p.1) = none →
        hasSub (lowerStr query) "deze maand" = false →
        hasSub (lowerStr query) "vorige maand" = false →
        quartersList.find? (fun p => hasSub (lowerStr query) p.1) = none →
        findYear (lowerStr query).data = some y →
        parse_query_period query now = yearRuleRes now y) ∧
      (monthsList.find? (fun p => hasSub (lowerStr query) p.1) = none →
        hasSub (lowerStr query) "deze maand" = false →
        hasSub (lowerStr query) "vorige maand" = false →
        quartersList.find? (fun p => hasSub (lowerStr query) p.1) = none →
        findYear (lowerStr query).data = none →
        parse_query_period query now = allTimeRes now)) ∧
    parse_query_period "omzet q1 maart 2024" ⟨2025, 6, 15⟩ = .ok (.range ⟨2024, 3, 1⟩ ⟨2024, 3, 31⟩) ∧
    parse_query_period "omzet dit jaar" ⟨2025, 10, 12⟩ = .ok (.range ⟨2000, 1, 1⟩ ⟨2025, 10, 12⟩) := by
  refine ⟨fun query now => ⟨?_, ?_, ?_, ?_, ?_, ?_⟩, by decide, by decide⟩
  · intro name m hf
    simp only [parse_query_period, monthRuleRes, hf]
  · intro hf hd
    simp only [parse_query_period, currentMonthRes, hf, hd]
    rfl
  · intro hf hd hv
    simp only [parse_query_period, previousMonthRes, hf, hd, hv]
    rfl
  · intro name sm em hf hd hv hq
    simp only [parse_query_period, quarterRuleRes, hf, hd, hv, hq]
    rfl
  · intro y hf hd hv hq hy
    simp only [parse_query_period, yearRuleRes, hf, hd, hv, hq, hy]
    rfl
  · intro hf hd hv hq hy
    simp only [parse_query_period, allTimeRes, hf, hd, hv, hq, hy]
    rfl

/-- C1 counterexample: "omzet q1 maart 2024" contains both a quarter keyword
and a Dutch month name; the claim predicts the Quarter range (2024-01-01 to
2024-03-31), but the resolver returns the SpecificMonth range for March. -/
theorem c1_counterexample :
    parse_query_period "omzet q1 maart 2024" ⟨2025, 6, 15⟩ = .ok (.range ⟨2024, 3, 1⟩ ⟨2024, 3, 31⟩) ∧
    parse_query_period "omzet q1 maart 2024" ⟨2025, 6, 15⟩ ≠ .ok (.range ⟨2024, 1, 1⟩ ⟨2024, 3, 31⟩) :=
  ⟨by decide, by decide⟩

/-- C1 witness: the month rule fires on "omzet q1 maart 2024" (first
matching month name "maart"). -/
theorem c1_witness :
    monthsList.find? (fun p => hasSub (lowerStr "omzet q1 maart 2024") p.1) = some ("maart", 3) ∧
    parse_query_period "omzet q1 maart 2024" ⟨2025, 6, 15⟩ =
      monthRuleRes (lowerStr "omzet q1 maart 2024") ⟨2025, 6, 15⟩ "maart" 3 := by
  refine ⟨by decide, ?_⟩
  exact (c1_resolution_order.1 "omzet q1 maart 2024" ⟨2025, 6, 15⟩).1 "maart" 3 (by decide)

/-- C3 (confirmed): a month resolution or quarter resolution whose start
date lies strictly after "now" raises the future-period `ValueError`
(the spec's `FuturePeriodError`), carrying the month/quarter name and year —
the human-readable period description — in the message; the `'deze maand'`
and `'vorige maand'` resolutions always succeed.  The query
"omzet in januari 2099" raises it with "januari 2099" in the message. -/
theorem c3_future_period :
    (∀ (query : String) (now : Date) (name : String) (m : Nat),
      monthsList.find? (fun p => hasSub (lowerStr query) p.1) = some (name, m) →
      dateLt now (monthStart ((findYear (lowerStr query).data).getD now.year) m) = true →
      parse_query_period query now =
        .error (.futureMonth name ((findYear (lowerStr query).data).getD now.year))) ∧
    (∀ (query : String) (now : Date) (name : String) (sm em : Nat),
      monthsList.find? (fun p => hasSub (lowerStr query) p.1) = none →
      hasSub (lowerStr query) "deze maand" = false →
      hasSub (lowerStr query) "vorige maand" = false →
      quartersList.find? (fun p => hasSub (lowerStr query) p.1) = some (name, sm, em) →
      dateLt now (monthStart ((findYear (lowerStr query).data).getD now.year) sm) = true →
      parse_query_period query now =
        .error (.futureQuarter name ((findYear (lowerStr query).data).getD now.year))) ∧
    (∀ (query : String) (now : Date),
      monthsList.find? (fun p => hasSub (lowerStr query) p.1) = none →
      hasSub (lowerStr query) "deze maand" = true →
      parse_query_period query now = currentMonthRes now) ∧
    (∀ (query : String) (now : Date),
      monthsList.find? (fun p => hasSub (lowerStr query) p.1) = none →
      hasSub (lowerStr query) "deze maand" = false →
      hasSub (lowerStr query) "vorige maand" = true →
      parse_query_period query now = previousMonthRes now) ∧
    parse_query_period "omzet in januari 2099" ⟨2025, 10, 12⟩ =
      .error (.futureMonth "januari" 2099) ∧
    hasSub (renderResolveErr (.futureMonth "januari" 2099)) "januari 2099" = true := by
  refine ⟨?_, ?_, ?_, ?_, by decide, by decide⟩
  · intro query now name m hf hfut
    simp only [parse_query_period, hf, hfut]
    rfl
  · intro query now name sm em hf hd hv hq hfut
    simp only [parse_query_period, hf, hd, hv, hq, hfut]
    rfl
  · intro query now hf hd
    simp only [parse_query_period, currentMonthRes, hf, hd]
    rfl
  · intro query now hf hd hv
    simp only [parse_query_period, previousMonthRes, hf, hd, hv]
    rfl

/-- C3 witness: the month conjunct of `c3_future_period` at the query
"omzet in januari 2099" with now = 2025-10-12. -/
theorem c3_witness :
    monthsList.find? (fun p => hasSub (lowerStr "omzet in januari 2099") p.1) =
      some ("januari", 1) ∧
    parse_query_period "omzet in januari 2099" ⟨2025, 10, 12⟩ =
      .error (.futureMonth "januari"
        ((findYear (lowerStr "omzet in januari 2099").data).getD 2025)) := by
  refine ⟨by decide, ?_⟩
  exact c3_future_period.1 "omzet in januari 2099" ⟨2025, 10, 12⟩ "januari" 1
    (by decide) (by decide)

/-- C10 witness: `c10_bare_year_dict` at the concrete query "omzet 2023". -/
theorem c10_witness :
    parse_query_period "omzet 2023" ⟨2025, 10, 12⟩ = .ok (.yearDict 2023) ∧
    query_data [] (some ⟨[]⟩) "omzet 2023" ⟨2025, 10, 12⟩ (fun _ => "antwoord") =
      .error "Er is een fout opgetreden: Kon de periode niet bepalen: 0" :=
  c10_bare_year_dict "omzet 2023" ⟨2025, 10, 12⟩ ⟨[]⟩ [] (fun _ => "antwoord") 2023
    (by decide) (by decide) (by decide) (by decide) (by decide) (by decide) (by decide)

/-- C2 (corrected): the trend comparison never happens.  For any resolved
`(start, end)` range (and for no period at all) `_get_previous_period_data`
returns `None` — its `isinstance(period, dict)` guard rejects tuples — so
the summary's trends are always `total_change_percentage = 0` with an empty
per-type table; only a dict period would reach the shifting code, and both
`get_training_summary` and `_get_previous_period_data` fail on dicts at
`period[0]` with `KeyError(0)`.  (The one shift the code would construct is
`[start − 1 year, start − 1 day]` regardless of period kind.) -/
theorem c2_trends_never_compare :
    (∀ (data : TrainingData) (s e : Date) (cf : Option String),
      get_previous_period_data data (some (.range s e)) = .ok none ∧
      (get_training_summary data (some (.range s e)) cf).map Summary.trends = .ok ⟨0, []⟩) ∧
    (∀ (data : TrainingData) (cf : Option String),
      get_previous_period_data data none = .ok none ∧
      (get_training_summary data none cf).map Summary.trends = .ok ⟨0, []⟩) ∧
    (∀ (data : TrainingData) (y : Nat) (cf : Option String),
      get_training_summary data (some (.yearDict y)) cf = .error "KeyError: 0") := by
  refine ⟨fun data s e cf => ⟨rfl, ?_⟩, fun data cf => ⟨rfl, ?_⟩, fun data y cf => rfl⟩
  · simp only [get_training_summary, get_previous_period_data, Except.map]
    simp [calculate_trends]
  · simp only [get_training_summary, get_previous_period_data, Except.map]
    simp [calculate_trends]

/-- C2 counterexample: on a dataset with 300 of January-2024 revenue and
600 of February-2024 revenue, summarizing February 2024 yields a total
change percentage of 0, while the claimed previous-month comparison yields
(600−300)/300·100 = 100. -/
theorem c2_counterexample :
    (get_training_summary c2data (some (.range (monthStart 2024 2) (monthEnd 2024 2))) none).map
        (fun sm => sm.trends.total_change_percentage) = .ok 0 ∧
    specMonthTrendPct c2data 2024 2 = 100 ∧
    (Except.ok (0 : ℚ) : Except String ℚ) ≠ .ok 100 := by
  refine ⟨?_, ?_, ?_⟩
  · simp only [get_training_summary, get_previous_period_data, Except.map]
    simp [calculate_trends]
  · have hfeb : c2data.filter_by_period (monthStart 2024 2) (monthEnd 2024 2) =
        ⟨[⟨⟨2024, 2, 5⟩, "Training A", 100, "Green Belt", "ACME"⟩,
          ⟨⟨2024, 2, 6⟩, "Training B", 200, "Green Belt", "ACME"⟩,
          ⟨⟨2024, 2, 7⟩, "Training C", 300, "Black Belt", "Beta"⟩]⟩ := rfl
    have hjan : c2data.filter_by_period (monthStart 2024 1) (monthEnd 2024 1) =
        ⟨[⟨⟨2024, 1, 10⟩, "Training D", 300, "Green Belt", "ACME"⟩]⟩ := rfl
    have hpm : prevMonthYM 2024 2 = (2024, 1) := rfl
    unfold specMonthTrendPct
    rw [hfeb, hpm]
    simp only
    rw [hjan]
    simp [TrainingData.get_total_revenue]
    norm_num
  · intro h
    rw [Except.ok.injEq] at h
    norm_num at h

/-- The parsed-row accumulator of `from_sheet_data` keeps exactly the
successfully parsed rows, in order. -/
theorem loadRowsAux_fst (i : Nat) (rows : List RawRow) :
    (loadRowsAux i rows).1 = rows.filterMap (fun r => (Training.from_row r).toOption) := by
  induction rows generalizing i with
  | nil => rfl
  | cons r rs ih =>
    cases h : Training.from_row r with
    | ok t => simp [loadRowsAux, h, Except.toOption, ih]
    | error m => simp [loadRowsAux, h, Except.toOption, ih]

/-- The error accumulator of `from_sheet_data` is empty exactly when every
row parses. -/
theorem loadRowsAux_snd_nil (i : Nat) (rows : List RawRow) :
    (loadRowsAux i rows).2 = [] ↔ ∀ r ∈ rows, ∃ t, Training.from_row r = .ok t := by
  induction rows generalizing i with
  | nil => simp [loadRowsAux]
  | cons r rs ih =>
    cases h : Training.from_row r with
    | ok t => simp [loadRowsAux, h, ih]
    | error m => simp [loadRowsAux, h]

/-- Membership in the error accumulator: `(j, msg)` is recorded exactly for
the failing row at offset `j − i`. -/
theorem loadRowsAux_snd_mem (i : Nat) (rows : List RawRow) (j : Nat) (msg : String) :
    (j, msg) ∈ (loadRowsAux i rows).2 ↔
      ∃ k, ∃ h : k < rows.length,
        j = i + k ∧ Training.from_row (rows.get ⟨k, h⟩) = .error msg := by
  induction rows generalizing i with
  | nil => simp [loadRowsAux]
  | cons r rs ih =>
    cases h : Training.from_row r with
    | ok t =>
      rw [show (loadRowsAux i (r :: rs)).2 = (loadRowsAux (i + 1) rs).2 by
        simp [loadRowsAux, h]]
      rw [ih]
      constructor
      · rintro ⟨k, hk, hj, he⟩
        refine ⟨k + 1, ?_, ?_, he⟩
        · simp only [List.length_cons]
          omega
        · omega
      · rintro ⟨k, hk, hj, he⟩
        cases k with
        | zero =>
          exfalso
          rw [show (r :: rs).get ⟨0, hk⟩ = r from rfl, h] at he
          exact Except.noConfusion he
        | succ k =>
          refine ⟨k, ?_, ?_, he⟩
          · simp only [List.length_cons] at hk
            omega
          · omega
    | error m =>
      rw [show (loadRowsAux i (r :: rs)).2 = (i, m) :: (loadRowsAux (i + 1) rs).2 by
        simp [loadRowsAux, h]]
      rw [List.mem_cons, ih]
      constructor
      · rintro (hp | ⟨k, hk, hj, he⟩)
        · injection hp with h1 h2
          refine ⟨0, ?_, ?_, ?_⟩
          · simp only [List.length_cons]
            omega
          · omega
          · rw [show (r :: rs).get ⟨0, by simp⟩ = r from rfl, h, h2]
        · refine ⟨k + 1, ?_, ?_, he⟩
          · simp only [List.length_cons]
            omega
          · omega
      · rintro ⟨k, hk, hj, he⟩
        cases k with
        | zero =>
          left
          rw [show (r :: rs).get ⟨0, hk⟩ = r from rfl, h] at he
          injection he with hme
          have hji : j = i := by omega
          rw [hji, hme]
        | succ k =>
          right
          refine ⟨k, ?_, ?_, he⟩
          · simp only [List.length_cons] at hk
            omega
          · omega

/-- `filterMap` keeps every element when the function succeeds everywhere. -/
theorem length_filterMap_of_all {α β : Type _} (f : α → Option β) (l : List α)
    (h : ∀ a ∈ l, ∃ b, f a = some b) : (l.filterMap f).length = l.length := by
  induction l with
  | nil => rfl
  | cons a l ih =>
    obtain ⟨b, hb⟩ := h a (List.mem_cons_self a l)
    simp [List.filterMap_cons, hb, ih (fun x hx => h x (List.mem_cons_of_mem a hx))]

/-- C4 (confirmed): batch ingestion is all-or-nothing.  If every row parses,
`from_sheet_data` returns exactly the parsed rows (same count, same order);
if any row fails, it raises one error itemizing precisely the failing rows
by index, producing no partial collection and dropping no row silently. -/
theorem c4_batch_all_or_nothing :
    ∀ rows : List RawRow,
      ((∀ r ∈ rows, ∃ t, Training.from_row r = .ok t) →
        TrainingData.from_sheet_data rows =
          .ok ⟨rows.filterMap (fun r => (Training.from_row r).toOption)⟩ ∧
        (rows.filterMap (fun r => (Training.from_row r).toOption)).length = rows.length) ∧
      (¬ (∀ r ∈ rows, ∃ t, Training.from_row r = .ok t) →
        ∃ es, TrainingData.from_sheet_data rows = .error es ∧ es ≠ [] ∧
          ∀ (k : Nat) (h : k < rows.length) (msg : String),
            ((k, msg) ∈ es ↔ Training.from_row (rows.get ⟨k, h⟩) = .error msg)) := by
  intro rows
  constructor
  · intro hall
    have h2 : (loadRowsAux 0 rows).2 = [] := (loadRowsAux_snd_nil 0 rows).mpr hall
    constructor
    · unfold TrainingData.from_sheet_data
      simp [h2, loadRowsAux_fst]
    · exact length_filterMap_of_all _ rows (fun a ha => by
        obtain ⟨t, ht⟩ := hall a ha
        exact ⟨t, by simp [ht, Except.toOption]⟩)
  · intro hnot
    have h2 : (loadRowsAux 0 rows).2 ≠ [] := fun hc =>
      hnot ((loadRowsAux_snd_nil 0 rows).mp hc)
    refine ⟨(loadRowsAux 0 rows).2, ?_, h2, ?_⟩
    · unfold TrainingData.from_sheet_data
      have he : (loadRowsAux 0 rows).2.isEmpty = false := by
        cases hv : (loadRowsAux 0 rows).2 with
        | nil => exact absurd hv h2
        | cons a l => simp [hv]
      simp [he]
    · intro k h msg
      rw [loadRowsAux_snd_mem]
      constructor
      · rintro ⟨k2, hk2, hj, he⟩
        have hkk : k2 = k := by omega
        subst hkk
        exact he
      · intro he
        exact ⟨k, h, by omega, he⟩

/-- The fully-parseable example row parses to `goodTraining`. -/
theorem from_row_goodRow : Training.from_row goodRow = .ok goodTraining := by
  have hd : parseDateChars "05-01-2024".data = some ⟨2024, 1, 5⟩ := by decide
  have ho : pyFloatParts (omzetNormalize "€ 100,00".data) = some (false, ⟨100, 0, 2, 0⟩) := by
    decide
  simp [Training.from_row, goodRow, hd, parse_omzet, pyFloat, ho, floatMagToRat, goodTraining]

/-- C4 witness: the all-rows-parse branch of `c4_batch_all_or_nothing` on a
one-row table. -/
theorem c4_witness :
    (∀ r ∈ [goodRow], ∃ t, Training.from_row r = .ok t) ∧
    TrainingData.from_sheet_data [goodRow] =
      .ok ⟨[goodRow].filterMap (fun r => (Training.from_row r).toOption)⟩ := by
  have hall : ∀ r ∈ [goodRow], ∃ t, Training.from_row r = .ok t := by
    intro r hr
    rw [List.mem_singleton] at hr
    subst hr
    exact ⟨goodTraining, from_row_goodRow⟩
  exact ⟨hall, ((c4_batch_all_or_nothing [goodRow]).1 hall).1⟩

/-- `toDigitsRev` with enough fuel computes `Nat.digits 10`. -/
theorem toDigitsRev_eq (fuel n : Nat) (h : n ≤ fuel) : toDigitsRev fuel n = Nat.digits 10 n := by
  induction fuel generalizing n with
  | zero =>
    interval_cases n
    simp [toDigitsRev]
  | succ f ih =>
    by_cases hn : n = 0
    · simp [toDigitsRev, hn]
    · rw [toDigitsRev, if_neg hn, Nat.digits_def' (by norm_num : 1 < 10) (Nat.pos_of_ne_zero hn)]
      congr 1
      exact ih _ (by omega)

/-- Digit characters decode to their values. -/
theorem digit10_facts : ∀ d : Nat, d < 10 →
    isDigitCh (digitChar10 d) = true ∧ digitVal (digitChar10 d) = d := by decide

/-- Folding the decimal digits most-significant-first recomputes the number. -/
theorem foldr_digits_eq_ofDigits (L : List Nat) (h : ∀ d ∈ L, d < 10) :
    L.foldr (fun d a => 10 * a + digitVal (digitChar10 d)) 0 = Nat.ofDigits 10 L := by
  induction L with
  | nil => simp [Nat.ofDigits_nil]
  | cons d L ih =>
    rw [List.foldr_cons, Nat.ofDigits_cons,
      ih (fun x hx => h x (List.mem_cons_of_mem d hx)),
      (digit10_facts d (h d (List.mem_cons_self d L))).2]
    ring

/-- For nonzero `n`, `natChars` is the reversed digit list, rendered. -/
theorem natChars_eq_digits {n : Nat} (hn : n ≠ 0) :
    natChars n = ((Nat.digits 10 n).reverse).map digitChar10 := by
  unfold natChars
  rw [if_neg hn, toDigitsRev_eq n n le_rfl]

/-- Every character of a rendered number is a digit. -/
theorem natChars_all_digits (n : Nat) : ∀ c ∈ natChars n, isDigitCh c = true := by
  by_cases hn : n = 0
  · subst hn
    decide
  · rw [natChars_eq_digits hn]
    intro c hc
    obtain ⟨d, hd, rfl⟩ := List.mem_map.mp hc
    have : d < 10 :=
      Nat.digits_lt_base (by norm_num) (List.mem_reverse.mp hd)
    exact (digit10_facts d this).1

/-- A rendered number is never the empty string. -/
theorem natChars_ne_nil (n : Nat) : natChars n ≠ [] := by
  by_cases hn : n = 0
  · subst hn
    decide
  · rw [natChars_eq_digits hn]
    simp [Nat.digits_ne_nil_iff_ne_zero.mpr hn]

/-- Parsing a rendered number recovers it. -/
theorem parseNat_natChars (n : Nat) : parseNatChars (natChars n) = some n := by
  by_cases hn : n = 0
  · subst hn
    decide
  · unfold parseNatChars
    rw [if_pos]
    · congr 1
      rw [natChars_eq_digits hn, List.map_reverse, List.foldl_reverse, List.foldr_map,
        foldr_digits_eq_ofDigits _ (fun d hd => Nat.digits_lt_base (by norm_num) hd),
        Nat.ofDigits_digits]
    · rw [Bool.and_eq_true, decide_eq_true_eq]
      exact ⟨natChars_ne_nil n, List.all_eq_true.mpr (fun c hc => natChars_all_digits n c hc)⟩

/-- A four-digit number renders to four characters. -/
theorem natChars_len4 {n : Nat} (h1 : 1000 ≤ n) (h2 : n < 10000) :
    (natChars n).length = 4 := by
  have hn : n ≠ 0 := by omega
  have hlog : Nat.log 10 n = 3 :=
    Nat.log_eq_of_pow_le_of_lt_pow (by norm_num at h1 ⊢; omega) (by norm_num; omega)
  rw [natChars_eq_digits hn, List.length_map, List.length_reverse,
    Nat.digits_len 10 n (by norm_num) hn, hlog]

/-- Round-trip and shape facts for the two-digit padding, `n < 32`. -/
theorem pad2_facts : ∀ n : Nat, n < 32 →
    parseNatChars (pad2 n) = some n ∧ (pad2 n).length = 2 := by decide

/-- Every character of the two-digit padding is a digit. -/
theorem pad2_all_digits (n : Nat) : ∀ c ∈ pad2 n, isDigitCh c = true := by
  unfold pad2
  by_cases h : n < 10
  · rw [if_pos h]
    intro c hc
    rcases List.mem_cons.mp hc with rfl | hc2
    · decide
    · rw [List.mem_singleton.mp hc2]
      exact (digit10_facts n h).1
  · rw [if_neg h]
    exact natChars_all_digits n

/-- A digit character is not the separator `'-'`. -/
theorem isDigit_ne_dash (c : Char) (h : isDigitCh c = true) : c ≠ '-' := by
  intro hc
  subst hc
  exact absurd h (by decide)

/-- A digit character is not whitespace. -/
theorem isDigit_not_ws (c : Char) (h : isDigitCh c = true) : pyWs c = false := by
  cases hw : pyWs c
  · rfl
  · exfalso
    have hc : c ∈ pyWsChars := by
      have := hw
      simp only [pyWs] at this
      exact List.mem_of_elem_eq_true this
    fin_cases hc <;> exact absurd h (by decide)

/-- `dropWhile` is the identity when no element satisfies the predicate. -/
theorem dropWhile_of_none {α : Type _} (p : α → Bool) (l : List α)
    (h : ∀ a ∈ l, p a = false) : l.dropWhile p = l := by
  cases l with
  | nil => rfl
  | cons a l => simp [List.dropWhile_cons, h a (List.mem_cons_self a l)]

/-- Stripping does nothing to a string without whitespace. -/
theorem trimChars_of_no_ws {cs : List Char} (h : ∀ c ∈ cs, pyWs c = false) :
    trimChars cs = cs := by
  unfold trimChars
  rw [dropWhile_of_none pyWs cs h,
    dropWhile_of_none pyWs cs.reverse (fun c hc => h c (List.mem_reverse.mp hc)),
    List.reverse_reverse]

/-- Splitting a dash-free string yields the single piece. -/
theorem splitDash_no_dash {cs : List Char} (h : ∀ c ∈ cs, c ≠ '-') :
    splitDash cs = [cs] := by
  induction cs with
  | nil => rfl
  | cons c cs ih =>
    rw [splitDash, if_neg (h c (List.mem_cons_self c cs)),
      ih (fun x hx => h x (List.mem_cons_of_mem c hx))]

/-- Splitting at the first dash of a dash-free prefix. -/
theorem splitDash_append {xs : List Char} (ys : List Char) (h : ∀ c ∈ xs, c ≠ '-') :
    splitDash (xs ++ '-' :: ys) = xs :: splitDash ys := by
  induction xs with
  | nil => simp [splitDash]
  | cons x xs ih =>
    rw [List.cons_append, splitDash, if_neg (h x (List.mem_cons_self x xs)),
      ih (fun c hc => h c (List.mem_cons_of_mem x hc))]

/-- Reparsing a formatted valid date recovers the date: the `%d-%m-%Y`
round-trip underneath `standardize_date`'s idempotence. -/
theorem parseDateChars_fmt (y m d : Nat) (h : validDMY d m y = true) :
    parseDateChars (fmtDateDDMMYYYY ⟨y, m, d⟩) = some ⟨y, m, d⟩ := by
  have hb : (1 ≤ m ∧ m ≤ 12) ∧ (1 ≤ d ∧ d ≤ daysInMonth y m) ∧ 1678 ≤ y ∧ y ≤ 2261 := by
    simpa [validDMY, Bool.and_eq_true, decide_eq_true_eq, and_assoc] using h
  have hdim : daysInMonth y m ≤ 31 := by
    unfold daysInMonth
    split_ifs <;> omega
  have hd32 : d < 32 := by omega
  have hm32 : m < 32 := by omega
  obtain ⟨hdP, hdL⟩ := pad2_facts d hd32
  obtain ⟨hmP, hmL⟩ := pad2_facts m hm32
  have hyL : (natChars y).length = 4 := natChars_len4 (by omega) (by omega)
  have hyP := parseNat_natChars y
  have nd1 : ∀ c ∈ pad2 d, c ≠ '-' := fun c hc => isDigit_ne_dash c (pad2_all_digits d c hc)
  have nd2 : ∀ c ∈ pad2 m, c ≠ '-' := fun c hc => isDigit_ne_dash c (pad2_all_digits m c hc)
  have nd3 : ∀ c ∈ natChars y, c ≠ '-' := fun c hc =>
    isDigit_ne_dash c (natChars_all_digits y c hc)
  unfold parseDateChars fmtDateDDMMYYYY
  dsimp only
  rw [splitDash_append (pad2 m ++ '-' :: natChars y) nd1, splitDash_append (natChars y) nd2,
    splitDash_no_dash nd3]
  simp only [hdL, hmL, hyL]
  rw [if_pos (by decide)]
  simp only [hdP, hmP, hyP]
  rw [if_pos h]

/-- Formatted dates contain no whitespace. -/
theorem fmt_no_ws (dt : Date) : ∀ c ∈ fmtDateDDMMYYYY dt, pyWs c = false := by
  intro c hc
  unfold fmtDateDDMMYYYY at hc
  simp only [List.mem_append, List.mem_cons] at hc
  rcases hc with hc | rfl | hc | rfl | hc
  · exact isDigit_not_ws c (pad2_all_digits dt.day c hc)
  · decide
  · exact isDigit_not_ws c (pad2_all_digits dt.month c hc)
  · decide
  · exact isDigit_not_ws c (natChars_all_digits dt.year c hc)

/-- A successful parse only returns calendar-valid dates. -/
theorem parseDateChars_valid {cs : List Char} {dt : Date}
    (hp : parseDateChars cs = some dt) : validDMY dt.day dt.month dt.year = true := by
  unfold parseDateChars at hp
  split at hp
  · split at hp
    · split at hp
      · split at hp
        · cases hp
          assumption
        · exact absurd hp (by simp)
      · exact absurd hp (by simp)
    · exact absurd hp (by simp)
  · exact absurd hp (by simp)

/-- C9 (confirmed): for every string that parses as a valid `dd-mm-yyyy`
date, `standardize_date` is idempotent — the first application produces the
canonical zero-padded rendering, which reparses to the same date and is
reproduced verbatim by the second application. -/
theorem c9_standardize_idempotent :
    ∀ s : String, (parseDateChars (trimChars s.data)).isSome = true →
      standardize_date (standardize_date s) = standardize_date s := by
  intro s h
  obtain ⟨dt, hdt⟩ := Option.isSome_iff_exists.mp h
  obtain ⟨y, m, d⟩ := dt
  have hv : validDMY d m y = true := parseDateChars_valid hdt
  have h1 : standardize_date s = ⟨fmtDateDDMMYYYY ⟨y, m, d⟩⟩ := by
    unfold standardize_date
    dsimp only
    rw [hdt]
  rw [h1]
  unfold standardize_date
  dsimp only
  rw [trimChars_of_no_ws (fmt_no_ws ⟨y, m, d⟩), parseDateChars_fmt y m d hv]

/-- C9 witness: `c9_standardize_idempotent` at the valid date string
"1-1-2024" (whose canonical form is "01-01-2024"). -/
theorem c9_witness :
    (parseDateChars (trimChars "1-1-2024".data)).isSome = true ∧
    standardize_date "1-1-2024" = "01-01-2024" ∧
    standardize_date (standardize_date "1-1-2024") = standardize_date "1-1-2024" :=
  ⟨by decide, by decide, c9_standardize_idempotent "1-1-2024" (by decide)⟩

end LSS